import Mathlib

/-!
Verification of the drone-simulator core: the navigation grid, the altitude-aware
A* pathfinder, the waypoint path stitcher, the per-agent flight physics and the
fleet formation computation.

Numbers are embedded as exact rationals.  The A* search compares costs of the
form `a + b * sqrt 2 + sqrt m` (step costs are `cellSize` or `cellSize * sqrt 2`
plus rational altitude penalties, and the heuristic is a Euclidean distance,
i.e. the square root of a rational).  Such costs are represented exactly: the
`sqrt 2` part as a pair of rationals (`Q2`) and the heuristic as its radicand.
The comparison procedures below are proved to agree with the real-number order,
so the embedded search makes exactly the comparisons the source arithmetic makes.
-/

/-- A 3D vector with rational coordinates, embedding `THREE.Vector3` values. -/
structure Vec3 where
  x : ℚ
  y : ℚ
  z : ℚ
deriving DecidableEq, Repr

/-- An element `a + b * sqrt 2` of the field `Q(sqrt 2)`, used to represent
accumulated A* g-costs exactly. -/
structure Q2 where
  a : ℚ
  b : ℚ
deriving DecidableEq, Repr

namespace Q2

def ofRat (q : ℚ) : Q2 := ⟨q, 0⟩

instance : Zero Q2 := ⟨⟨0, 0⟩⟩

instance : Add Q2 := ⟨fun x y => ⟨x.a + y.a, x.b + y.b⟩⟩

instance : Neg Q2 := ⟨fun x => ⟨-x.a, -x.b⟩⟩

instance : Sub Q2 := ⟨fun x y => ⟨x.a - y.a, x.b - y.b⟩⟩

instance : Mul Q2 := ⟨fun x y => ⟨x.a * y.a + 2 * x.b * y.b, x.a * y.b + x.b * y.a⟩⟩

/-- The real number denoted by a `Q2` value. -/
noncomputable def toReal (x : Q2) : ℝ := (x.a : ℝ) + (x.b : ℝ) * Real.sqrt 2

/-- Decides whether `a + b * sqrt 2` is nonnegative, by sign analysis and
squaring. -/
def nonneg (x : Q2) : Bool :=
  if 0 ≤ x.b then
    if 0 ≤ x.a then true else decide (x.a ^ 2 ≤ 2 * x.b ^ 2)
  else
    if 0 ≤ x.a then decide (2 * x.b ^ 2 ≤ x.a ^ 2) else false

/-- Decides `x ≤ y` over the reals. -/
def leb (x y : Q2) : Bool := (y - x).nonneg

/-- Decides `x < y` over the reals. -/
def ltb (x y : Q2) : Bool := !(y.leb x)

/-- Decides `u ≤ v * sqrt m` over the reals (for `0 ≤ m`), by sign analysis and
one squaring. -/
def leMulSqrt (u v : Q2) (m : ℚ) : Bool :=
  if v.nonneg then
    if u.nonneg then Q2.leb (u * u) (v * v * ofRat m) else true
  else
    if Q2.nonneg (-u) then Q2.leb (v * v * ofRat m) (u * u) else false

/-- Decides `sqrt m ≤ t + sqrt mp` over the reals (for `0 ≤ m`, `0 ≤ mp`). -/
def sqrtLeAddSqrt (m : ℚ) (t : Q2) (mp : ℚ) : Bool :=
  if t.nonneg || Q2.leb (t * t) (ofRat mp) then
    leMulSqrt (ofRat (m - mp) - t * t) (t + t) mp
  else false

end Q2

/-- An A* f-cost value `g + sqrt rad`: the accumulated g-cost (exact element of
`Q(sqrt 2)`) plus the heuristic, carried as its radicand. -/
structure FCost where
  g : Q2
  rad : ℚ
deriving DecidableEq, Repr

namespace FCost

/-- The real number an f-cost denotes. -/
noncomputable def toReal (f : FCost) : ℝ := f.g.toReal + Real.sqrt f.rad

/-- Decides `x ≤ y` over the reals, for radicands `≥ 0` (the search only ever
builds radicands that are sums of squares). -/
def leb (x y : FCost) : Bool := Q2.sqrtLeAddSqrt x.rad (y.g - x.g) y.rad

end FCost

/-- `Option` wrapper used for scratch fields initialised to `Infinity` in the
source: `none` stands for `Infinity`.  `fleOpt` compares f-costs the way the
open-set sort comparator does. -/
def fleOpt : Option FCost → Option FCost → Bool
  | _, none => true
  | none, some _ => false
  | some x, some y => x.leb y

/-- Strict `<` on optional g-costs, with `none` as `Infinity`: embeds the
source comparison `tentativeGCost < neighborNode.gCost` (a finite value is
below `Infinity`, and `Infinity` is below nothing). -/
def ltQ2Opt : Option Q2 → Option Q2 → Bool
  | none, _ => false
  | some _, none => true
  | some x, some y => x.ltb y

/-! ## NavigationGrid

Embeds the `NavigationGrid` class.  Cell centers are immutable and fully
determined by the construction parameters, so they are derived functions
rather than stored fields; the mutable per-cell occupancy state
(`isObstacle`, `maxObstacleHeight`) is stored as functions of the cell index.
The A* scratch fields the source resets at the start of every search are
modelled as search-local state in the Pathfinder section below. -/

/-- The axis-aligned footprint of a collidable object, as computed by
`new THREE.Box3().setFromObject(object)` in `populateFromObjects`:
XZ bounds plus the top height `objectBox.max.y`. -/
structure ObstacleBox where
  minWorldX : ℚ
  maxWorldX : ℚ
  minWorldZ : ℚ
  maxWorldZ : ℚ
  objectTopY : ℚ
deriving DecidableEq, Repr

structure NavigationGrid where
  worldWidth : ℚ
  worldDepth : ℚ
  cellSize : ℚ
  groundLevel : ℚ
  isObstacleAt : ℕ → ℕ → Bool
  maxObstacleHeightAt : ℕ → ℕ → ℚ

namespace NavigationGrid

/-- `this.gridCellsX = Math.floor(worldWidth / cellSize)`; set at construction
and immutable because `worldWidth` and `cellSize` never change. -/
def gridCellsX (g : NavigationGrid) : ℕ := (⌊g.worldWidth / g.cellSize⌋).toNat

def gridCellsZ (g : NavigationGrid) : ℕ := (⌊g.worldDepth / g.cellSize⌋).toNat

/-- The constructor: all cells start non-obstacle at ground height. -/
def construct (worldWidth worldDepth cellSize groundLevel : ℚ) : NavigationGrid :=
  { worldWidth := worldWidth
    worldDepth := worldDepth
    cellSize := cellSize
    groundLevel := groundLevel
    isObstacleAt := fun _ _ => false
    maxObstacleHeightAt := fun _ _ => groundLevel }

/-- The stored cell center `grid[i][j].worldX = (i + 0.5) * cellSize - worldWidth / 2`. -/
def cellWorldX (g : NavigationGrid) (i : ℕ) : ℚ :=
  ((i : ℚ) + 1 / 2) * g.cellSize - g.worldWidth / 2

/-- The stored cell center `grid[i][j].worldZ = (j + 0.5) * cellSize - worldDepth / 2`. -/
def cellWorldZ (g : NavigationGrid) (j : ℕ) : ℚ :=
  ((j : ℚ) + 1 / 2) * g.cellSize - g.worldDepth / 2

/-- `worldToGridCoordinates`: floor-based mapping with a bounds check. -/
def worldToGridCoordinates (g : NavigationGrid) (worldX worldZ : ℚ) : Option (ℕ × ℕ) :=
  let gridX : ℤ := ⌊(worldX + g.worldWidth / 2) / g.cellSize⌋
  let gridZ : ℤ := ⌊(worldZ + g.worldDepth / 2) / g.cellSize⌋
  if 0 ≤ gridX ∧ gridX < (g.gridCellsX : ℤ) ∧ 0 ≤ gridZ ∧ gridZ < (g.gridCellsZ : ℤ) then
    some (gridX.toNat, gridZ.toNat)
  else
    none

/-- `gridToWorldCoordinates`: bounds check, then the stored cell center. -/
def gridToWorldCoordinates (g : NavigationGrid) (gridX gridZ : ℕ) : Option (ℚ × ℚ) :=
  if gridX < g.gridCellsX ∧ gridZ < g.gridCellsZ then
    some (g.cellWorldX gridX, g.cellWorldZ gridZ)
  else
    none

/-- `populateFromObjects`: reset every cell, then mark each cell in the
footprint's (clamped) grid-index rectangle as obstacle, raising its height to
the footprint's top (max over overlapping footprints).  The footprint is
skipped entirely when either bounding corner maps outside the grid, as in the
source (`if (startGridCoords && endGridCoords)`); the per-index bounds
re-checks of the source loops are kept. -/
def populateStep (acc : NavigationGrid) (ob : ObstacleBox) : NavigationGrid :=
  match acc.worldToGridCoordinates ob.minWorldX ob.minWorldZ,
      acc.worldToGridCoordinates ob.maxWorldX ob.maxWorldZ with
  | some s, some e =>
    { acc with
      isObstacleAt := fun i j =>
        if s.1 ≤ i ∧ i ≤ e.1 ∧ i < acc.gridCellsX ∧ s.2 ≤ j ∧ j ≤ e.2 ∧ j < acc.gridCellsZ
        then true
        else acc.isObstacleAt i j
      maxObstacleHeightAt := fun i j =>
        if s.1 ≤ i ∧ i ≤ e.1 ∧ i < acc.gridCellsX ∧ s.2 ≤ j ∧ j ≤ e.2 ∧ j < acc.gridCellsZ
        then max (acc.maxObstacleHeightAt i j) ob.objectTopY
        else acc.maxObstacleHeightAt i j }
  | _, _ => acc

def populateFromObjects (g : NavigationGrid) (collidableObjects : List ObstacleBox) :
    NavigationGrid :=
  let g0 : NavigationGrid :=
    { g with
      isObstacleAt := fun _ _ => false
      maxObstacleHeightAt := fun _ _ => g.groundLevel }
  collidableObjects.foldl populateStep g0

/-- The direction list of `getNeighbors`, in source order: four orthogonal,
then four diagonal. -/
def neighborDirections : List (ℤ × ℤ) :=
  [(-1, 0), (1, 0), (0, -1), (0, 1), (-1, -1), (-1, 1), (1, -1), (1, 1)]

/-- `getNeighbors`: in-bounds, non-obstacle neighbors, in direction order. -/
def getNeighbors (g : NavigationGrid) (gridX gridZ : ℕ) : List (ℕ × ℕ) :=
  neighborDirections.filterMap (fun dir =>
    let nextX : ℤ := (gridX : ℤ) + dir.1
    let nextZ : ℤ := (gridZ : ℤ) + dir.2
    if 0 ≤ nextX ∧ nextX < (g.gridCellsX : ℤ) ∧ 0 ≤ nextZ ∧ nextZ < (g.gridCellsZ : ℤ) ∧
        ¬g.isObstacleAt nextX.toNat nextZ.toNat then
      some (nextX.toNat, nextZ.toNat)
    else
      none)

end NavigationGrid

/-! ## Pathfinder

Embeds the `Pathfinder` A* module.  The open set is an array of cells sorted
by `fCost` at the top of every iteration with JavaScript's stable
`Array.prototype.sort` and consumed with `shift()`; this is modelled by a
stable insertion sort over the open list followed by taking its head, with
freshly discovered cells appended at the tail.  The per-cell scratch fields
(`gCost`, `hCost`, `fCost`, `parent`, `flyY`) that the source resets for every
cell before each search are modelled as a search-local map from cell indices,
whose initial value is the reset state.  `none` costs stand for `Infinity`.
The source keys the closed set by the grid coordinates recomputed from the
cell's stored world center via `worldToGridCoordinates`, which returns the
cell's own indices (the round-trip theorem below); the embedding uses the
indices directly.  The loop always terminates within `gridCellsX * gridCellsZ`
iterations (each iteration moves one cell to the closed set and closed cells
are never re-opened), so it is given that much fuel. -/

/-- One cell's A* scratch state; the reset state of the source sets
`gCost = hCost = fCost = Infinity`, `parent = null`, `flyY = 0`.
`hRad` carries the heuristic's radicand (`hCost` is its square root). -/
structure CellScratch where
  gCost : Option Q2
  hRad : Option ℚ
  fCost : Option FCost
  parent : Option (ℕ × ℕ)
  flyY : ℚ
deriving DecidableEq, Repr

def CellScratch.reset : CellScratch := ⟨none, none, none, none, 0⟩

def ScratchMap : Type := ℕ × ℕ → CellScratch

def ScratchMap.set (s : ScratchMap) (k : ℕ × ℕ) (v : CellScratch) : ScratchMap :=
  fun p => if p = k then v else s p

/-- Stable insertion of `x` into a list: `x` goes in front of the first
element it compares `≤` to, so earlier-pushed elements win ties, as with
JavaScript's stable sort. -/
def insertBy {α : Type} (le : α → α → Bool) (x : α) : List α → List α
  | [] => [x]
  | y :: ys => if le x y then x :: y :: ys else y :: insertBy le x ys

/-- Stable sort by a boolean comparison (insertion sort). -/
def sortBy {α : Type} (le : α → α → Bool) : List α → List α
  | [] => []
  | x :: xs => insertBy le x (sortBy le xs)

namespace Pathfinder

/-- The radicand of the source's 3D Euclidean `heuristic` between cell
`(ci, cj)` flying at `flyYA` and the goal's world center flying at `flyYB`. -/
def heuristicRad (g : NavigationGrid) (ci cj : ℕ) (flyYA : ℚ) (ei ej : ℕ) (flyYB : ℚ) : ℚ :=
  let dx := g.cellWorldX ei - g.cellWorldX ci
  let dz := g.cellWorldZ ej - g.cellWorldZ cj
  let dy := flyYB - flyYA
  dx * dx + dz * dz + dy * dy

/-- `reconstructPath`: walk `parent` links from the goal, prepending one point
per node, each at flying height `max(targetWaypointY, maxObstacleHeight +
droneSafetyMargin)`.  Fuel bounds the walk (a parent chain never revisits a
cell in a completed search). -/
def reconstructPathAux (scratch : ScratchMap) (g : NavigationGrid)
    (droneSafetyMargin targetWaypointY : ℚ) :
    ℕ → ℕ × ℕ → List Vec3 → List Vec3
  | 0, _, acc => acc
  | fuel + 1, node, acc =>
    let flyY := max targetWaypointY (g.maxObstacleHeightAt node.1 node.2 + droneSafetyMargin)
    let pt : Vec3 := ⟨g.cellWorldX node.1, flyY, g.cellWorldZ node.2⟩
    match (scratch node).parent with
    | none => pt :: acc
    | some p => reconstructPathAux scratch g droneSafetyMargin targetWaypointY fuel p (pt :: acc)

def reconstructPath (scratch : ScratchMap) (g : NavigationGrid)
    (droneSafetyMargin targetWaypointY : ℚ) (endNode : ℕ × ℕ) : List Vec3 :=
  reconstructPathAux scratch g droneSafetyMargin targetWaypointY
    (g.gridCellsX * g.gridCellsZ + 1) endNode []

/-- Processing of one neighbor inside the expansion loop (steps 5.d.i-iii of
the source).  Returns the updated scratch map and open list. -/
def processNeighbor (g : NavigationGrid) (endWorldY endCellFlyY : ℚ)
    (droneSafetyMargin altitudeChangePenalty : ℚ) (current : ℕ × ℕ)
    (closedSet : List (ℕ × ℕ)) (endCoords : ℕ × ℕ)
    (acc : ScratchMap × List (ℕ × ℕ)) (nb : ℕ × ℕ) : ScratchMap × List (ℕ × ℕ) :=
  let scratch := acc.1
  let openSet := acc.2
  if nb ∈ closedSet then acc
  else
    let nbFlyY := max endWorldY (g.maxObstacleHeightAt nb.1 nb.2 + droneSafetyMargin)
    let scratch := scratch.set nb { scratch nb with flyY := nbFlyY }
    let dxNeighbor := ((nb.1 : ℤ) - (current.1 : ℤ)).natAbs
    let dzNeighbor := ((nb.2 : ℤ) - (current.2 : ℤ)).natAbs
    let isDiagonalMove := dxNeighbor = 1 ∧ dzNeighbor = 1
    let costToMove : Q2 := if isDiagonalMove then ⟨0, g.cellSize⟩ else ⟨g.cellSize, 0⟩
    let altitudeChange := |nbFlyY - (scratch current).flyY|
    let tentativeGCost : Option Q2 :=
      (scratch current).gCost.map
        (fun gc => gc + costToMove + Q2.ofRat (altitudeChange * altitudeChangePenalty))
    if ltQ2Opt tentativeGCost (scratch nb).gCost then
      let hRad := heuristicRad g nb.1 nb.2 nbFlyY endCoords.1 endCoords.2 endCellFlyY
      let scratch := scratch.set nb
        { scratch nb with
          parent := some current
          gCost := tentativeGCost
          hRad := some hRad
          fCost := tentativeGCost.map (fun gc => ⟨gc, hRad⟩) }
      if nb ∈ openSet then (scratch, openSet) else (scratch, openSet ++ [nb])
    else if nb ∈ openSet then
      (scratch, openSet)
    else
      let hRad := heuristicRad g nb.1 nb.2 nbFlyY endCoords.1 endCoords.2 endCellFlyY
      let scratch := scratch.set nb
        { scratch nb with
          hRad := some hRad
          fCost := (scratch nb).gCost.map (fun gc => ⟨gc, hRad⟩) }
      if (scratch nb).gCost = none then (scratch, openSet ++ [nb]) else (scratch, openSet)

/-- The main A* loop (step 5 of the source). -/
def astarLoop (g : NavigationGrid) (endCoords : ℕ × ℕ) (endCellFlyY endWorldY : ℚ)
    (droneSafetyMargin altitudeChangePenalty : ℚ) :
    ℕ → ScratchMap → List (ℕ × ℕ) → List (ℕ × ℕ) → Option (List Vec3)
  | 0, _, _, _ => none
  | fuel + 1, scratch, openSet, closedSet =>
    match sortBy (fun a b => fleOpt (scratch a).fCost (scratch b).fCost) openSet with
    | [] => none
    | current :: rest =>
      if current = endCoords then
        some (reconstructPath scratch g droneSafetyMargin endWorldY current)
      else
        let closedSet := current :: closedSet
        let r := (g.getNeighbors current.1 current.2).foldl
          (processNeighbor g endWorldY endCellFlyY droneSafetyMargin altitudeChangePenalty
            current closedSet endCoords)
          (scratch, rest)
        astarLoop g endCoords endCellFlyY endWorldY droneSafetyMargin altitudeChangePenalty
          fuel r.1 r.2 closedSet

/-- `Pathfinder.findPath`: the two endpoint validity checks, scratch reset,
start-node initialisation, and the A* loop.  The source's default arguments
are `droneSafetyMargin = 1.0`, `altitudeChangePenalty = 1.5`. -/
def findPath (navGrid : NavigationGrid) (startWorldPos endWorldPos : Vec3)
    (droneSafetyMargin altitudeChangePenalty : ℚ) : Option (List Vec3) :=
  match navGrid.worldToGridCoordinates startWorldPos.x startWorldPos.z,
      navGrid.worldToGridCoordinates endWorldPos.x endWorldPos.z with
  | some startCoords, some endCoords =>
    if navGrid.isObstacleAt startCoords.1 startCoords.2 ∨
        navGrid.isObstacleAt endCoords.1 endCoords.2 then
      none
    else
      let startFlyY := max startWorldPos.y
        (navGrid.maxObstacleHeightAt startCoords.1 startCoords.2 + droneSafetyMargin)
      let endCellFlyY := max endWorldPos.y
        (navGrid.maxObstacleHeightAt endCoords.1 endCoords.2 + droneSafetyMargin)
      let hRad := heuristicRad navGrid startCoords.1 startCoords.2 startFlyY
        endCoords.1 endCoords.2 endCellFlyY
      let scratch : ScratchMap :=
        ScratchMap.set (fun _ => CellScratch.reset) startCoords
          ⟨some 0, some hRad, some ⟨0, hRad⟩, none, startFlyY⟩
      astarLoop navGrid endCoords endCellFlyY endWorldPos.y
        droneSafetyMargin altitudeChangePenalty
        (navGrid.gridCellsX * navGrid.gridCellsZ + 1) scratch [startCoords] []
  | _, _ => none

end Pathfinder

/-! ## WaypointNavigator

Embeds the `WaypointNavigator` class.  As in the source, the navigator is
constructed from a pathfinder and a navigation grid (dependency injection);
the leg search function is therefore a field, instantiated with
`Pathfinder.findPath` for the real system. -/

structure WaypointNavigator where
  pathfinderFindPath : NavigationGrid → Vec3 → Vec3 → ℚ → ℚ → Option (List Vec3)
  navGrid : NavigationGrid

namespace WaypointNavigator

/-- The body of the `for` loop of `generatePathThroughWaypoints`: threads the
accumulated `fullPath` and the running `currentPosition`.  After a successful
leg, `currentPosition` is set to the nominal waypoint and then overwritten
with the leg's actual last point whenever the leg is non-empty
(`List.getLastD` is exactly that). -/
def genLoop (wn : WaypointNavigator) (droneSafetyMargin altitudeChangePenalty : ℚ) :
    List Vec3 → Vec3 → List Vec3 → Option (List Vec3)
  | fullPath, _, [] => some fullPath
  | fullPath, currentPosition, nextWaypoint :: restWaypoints =>
    match wn.pathfinderFindPath wn.navGrid currentPosition nextWaypoint
        droneSafetyMargin altitudeChangePenalty with
    | none => none
    | some segmentPath =>
      genLoop wn droneSafetyMargin altitudeChangePenalty
        (fullPath ++ segmentPath.drop 1)
        (segmentPath.getLastD nextWaypoint)
        restWaypoints

/-- `generatePathThroughWaypoints`: pushes the literal start position, then
runs the per-waypoint loop.  An empty waypoint list yields `[startPos]`, which
is also what the source's early return produces. -/
def generatePathThroughWaypoints (wn : WaypointNavigator) (startPos : Vec3)
    (waypoints : List Vec3) (droneSafetyMargin altitudeChangePenalty : ℚ) :
    Option (List Vec3) :=
  genLoop wn droneSafetyMargin altitudeChangePenalty [startPos] startPos waypoints

/-- The sequence of per-leg search results, as the loop performs them: the
start of each leg after the first is the previous leg's actual last returned
point.  The sequence stops at the first failing leg (after a failure the loop
performs no further searches). -/
def legResults (wn : WaypointNavigator) (droneSafetyMargin altitudeChangePenalty : ℚ) :
    Vec3 → List Vec3 → List (Option (List Vec3))
  | _, [] => []
  | currentPosition, nextWaypoint :: restWaypoints =>
    match wn.pathfinderFindPath wn.navGrid currentPosition nextWaypoint
        droneSafetyMargin altitudeChangePenalty with
    | none => [none]
    | some segmentPath =>
      some segmentPath ::
        legResults wn droneSafetyMargin altitudeChangePenalty
          (segmentPath.getLastD nextWaypoint) restWaypoints

end WaypointNavigator

/-- The concatenation scheme the specification describes: the first leg's
point list kept in full, followed by every subsequent leg's points without its
first point.  (Definition follows the specification's words, for comparison
with the source's behaviour.) -/
def specConcatenation (legs : List (List Vec3)) : List Vec3 :=
  match legs with
  | [] => []
  | firstLeg :: restLegs => firstLeg ++ (restLegs.map (List.drop 1)).flatten

/-! ## DronePhysics

Embeds the `DronePhysics` class over exact rationals.  The transcendental
library functions the source calls (`Math.sqrt`, `Math.sin`, `Math.cos`,
`Math.atan2`) and the ambient inputs of the hover wobble (`Date.now()`,
`Math.random()`) are supplied through an oracle environment `Env`; every
theorem below holds for all oracle values.  The source always converts its
degree-valued heading to radians right before calling `Math.cos`/`Math.sin`,
so those two oracles take the angle in degrees with the conversion folded in.
JavaScript's remainder operator (sign of the dividend, truncated quotient) is
embedded as `jsMod`. -/

/-- Truncation toward zero, as JavaScript's remainder uses. -/
def ratTrunc (q : ℚ) : ℤ := q.num / (q.den : ℤ)

/-- JavaScript's `a % b`: `a - b * trunc(a / b)`. -/
def jsMod (a b : ℚ) : ℚ := a - b * (ratTrunc (a / b) : ℚ)

/-- `THREE.MathUtils.clamp(value, min, max) = Math.max(min, Math.min(max, value))`. -/
def clampQ (value lo hi : ℚ) : ℚ := max lo (min hi value)

/-- Oracle environment for library numerics and per-tick ambient inputs. -/
structure Env where
  sqrtO : ℚ → ℚ
  sinRadO : ℚ → ℚ
  cosDegO : ℚ → ℚ
  sinDegO : ℚ → ℚ
  atan2DegO : ℚ → ℚ → ℚ
  nowMs : ℚ
  randomO : ℚ

/-- The named boolean key states the physics reads. -/
structure Keys where
  w : Bool
  a : Bool
  s : Bool
  d : Bool
  ArrowUp : Bool
  ArrowDown : Bool
  Space : Bool
  ShiftLeft : Bool
  ShiftRight : Bool
  q : Bool
  e : Bool
  r : Bool
deriving DecidableEq, Repr

/-- The empty key-state object `{}` passed on non-active updates. -/
def Keys.none : Keys := ⟨false, false, false, false, false, false, false, false, false,
  false, false, false⟩

/-- The tilt pair `{ x, z }` in degrees. -/
structure Tilt2 where
  x : ℚ
  z : ℚ
deriving DecidableEq, Repr

structure DronePhysicsState where
  altitude : ℚ
  velocity : Vec3
  rotation : ℚ
  tilt : Tilt2
  position : Vec3
  inFormation : Bool
  crashed : Bool
deriving DecidableEq, Repr

namespace DronePhysics

def GRAVITY : ℚ := 49/5

def LIFT_POWER : ℚ := 6

def MAX_TILT : ℚ := 30

def ROTATION_SPEED : ℚ := 1

def MOVEMENT_SPEED : ℚ := 25

def DRAG_FACTOR : ℚ := 19/20

def VERTICAL_DRAG_FACTOR : ℚ := 97/100

def FORMATION_FOLLOW_SPEED : ℚ := 10

def autonomousTargetReachedThreshold : ℚ := 3/2

/-- `reset()`: default position, zero velocity/heading/tilt, crash flag
cleared.  (`altitude` and `inFormation` are not touched by the source.) -/
def reset (p : DronePhysicsState) : DronePhysicsState :=
  { p with
    position := ⟨0, 10, 0⟩
    velocity := ⟨0, 0, 0⟩
    rotation := 0
    tilt := ⟨0, 0⟩
    crashed := false }

def _calculateLift (env : Env) (keys : Keys) (p : DronePhysicsState) : ℚ :=
  if keys.ArrowUp || keys.Space then
    LIFT_POWER * (9/2)
  else if keys.ArrowDown || keys.ShiftLeft || keys.ShiftRight then
    -(LIFT_POWER * (9/2))
  else
    let lift := GRAVITY + env.sinRadO (env.nowMs / 500) * 3 + (env.randomO - 1/2) * 3
    let distanceFromHover := p.altitude - p.position.y
    if |distanceFromHover| > 2 then lift + distanceFromHover * (1/10) else lift

def _handleRotation (keys : Keys) (p : DronePhysicsState) : DronePhysicsState :=
  let rot := if keys.q then p.rotation + ROTATION_SPEED else p.rotation
  let rot := if keys.e then rot - ROTATION_SPEED else rot
  { p with rotation := jsMod (rot + 360) 360 }

def _handleMovement (env : Env) (delta : ℚ) (keys : Keys) (p : DronePhysicsState) :
    DronePhysicsState :=
  let rotCos := env.cosDegO p.rotation
  let rotSin := env.sinDegO p.rotation
  let fb :=
    if keys.w then
      (min (p.tilt.x + 1) MAX_TILT,
        p.velocity.x + rotSin * MOVEMENT_SPEED * delta,
        p.velocity.z + rotCos * MOVEMENT_SPEED * delta)
    else if keys.s then
      (max (p.tilt.x - 1) (-MAX_TILT),
        p.velocity.x - rotSin * MOVEMENT_SPEED * delta,
        p.velocity.z - rotCos * MOVEMENT_SPEED * delta)
    else
      (p.tilt.x * (19/20), p.velocity.x, p.velocity.z)
  let lr :=
    if keys.a then
      (max (p.tilt.z - 1) (-MAX_TILT),
        fb.2.1 + rotCos * MOVEMENT_SPEED * delta,
        fb.2.2 - rotSin * MOVEMENT_SPEED * delta)
    else if keys.d then
      (min (p.tilt.z + 1) MAX_TILT,
        fb.2.1 - rotCos * MOVEMENT_SPEED * delta,
        fb.2.2 + rotSin * MOVEMENT_SPEED * delta)
    else
      (p.tilt.z * (19/20), fb.2.1, fb.2.2)
  let p := { p with
    tilt := ⟨fb.1, lr.1⟩
    velocity := ⟨lr.2.1, p.velocity.y, lr.2.2⟩ }
  if keys.r then reset p else p

def _applyDrag (p : DronePhysicsState) : DronePhysicsState :=
  { p with velocity := ⟨p.velocity.x * DRAG_FACTOR, p.velocity.y * VERTICAL_DRAG_FACTOR,
      p.velocity.z * DRAG_FACTOR⟩ }

def _updatePosition (delta : ℚ) (p : DronePhysicsState) : DronePhysicsState :=
  { p with position := ⟨p.position.x + p.velocity.x * delta,
      p.position.y + p.velocity.y * delta,
      p.position.z + p.velocity.z * delta⟩ }

def _handleGroundCollision (p : DronePhysicsState) : DronePhysicsState :=
  if p.position.y < 1 then
    { p with
      position := ⟨p.position.x, 1, p.position.z⟩
      velocity := ⟨p.velocity.x, 0, p.velocity.z⟩ }
  else p

def _steerTowardsPoint (env : Env) (targetWorldPos : Vec3) (delta : ℚ)
    (p : DronePhysicsState) : DronePhysicsState :=
  let dvx := targetWorldPos.x - p.position.x
  let dvy := targetWorldPos.y - p.position.y
  let dvz := targetWorldPos.z - p.position.z
  let distanceToTarget := env.sqrtO (dvx * dvx + dvy * dvy + dvz * dvz)
  let p :=
    if distanceToTarget > 1/10 then
      let targetRotationDeg := env.atan2DegO dvx dvz
      let targetRotationDeg :=
        if targetRotationDeg < 0 then targetRotationDeg + 360 else targetRotationDeg
      let rotationDiff := targetRotationDeg - p.rotation
      let rotationDiff :=
        if rotationDiff > 180 then rotationDiff - 360
        else if rotationDiff < -180 then rotationDiff + 360
        else rotationDiff
      let maxRotationChange := ROTATION_SPEED * 2
      let rot := p.rotation +
        clampQ rotationDiff (-maxRotationChange) maxRotationChange * delta * 50
      { p with rotation := jsMod (rot + 360) 360 }
    else p
  let heightDifference := targetWorldPos.y - p.position.y
  let verticalSpeedFactor : ℚ := 5
  let vy :=
    if |heightDifference| > 1/5 then
      p.velocity.y + heightDifference * verticalSpeedFactor * delta
    else
      p.velocity.y * (4/5)
  let vy := clampQ vy (-LIFT_POWER) LIFT_POWER
  let maxHorizontalSpeed := MOVEMENT_SPEED * (3/100)
  let hv :=
    if distanceToTarget > autonomousTargetReachedThreshold * (1/2) then
      let speedReductionFactor := min 1 (distanceToTarget / (autonomousTargetReachedThreshold * 2))
      let newLength := maxHorizontalSpeed * speedReductionFactor
      (dvx / distanceToTarget * newLength, dvz / distanceToTarget * newLength)
    else if distanceToTarget > 1/10 then
      let newLength := maxHorizontalSpeed * (1/5)
      (dvx / distanceToTarget * newLength, dvz / distanceToTarget * newLength)
    else
      (p.velocity.x * (9/10), p.velocity.z * (9/10))
  let rotCos := env.cosDegO p.rotation
  let rotSin := env.sinDegO p.rotation
  let localVelocityZ := hv.2 * rotCos - hv.1 * rotSin
  let localVelocityX := hv.1 * rotCos + hv.2 * rotSin
  let tiltFactor : ℚ := 1/2
  { p with
    velocity := ⟨hv.1, vy, hv.2⟩
    tilt := ⟨clampQ (localVelocityZ * tiltFactor) (-MAX_TILT) MAX_TILT,
      clampQ (-localVelocityX * tiltFactor) (-MAX_TILT) MAX_TILT⟩ }

/-- `DronePhysics.update`: crashed agents get gravity, integration, ground
collision and zeroed tilt only; otherwise the autonomous steering or the
manual lift/rotation/movement path, followed by the shared drag, integration,
ground collision and altitude refresh. -/
def update (env : Env) (delta : ℚ) (keys : Keys) (isFlying : Bool)
    (autonomousTarget : Option Vec3) (p : DronePhysicsState) : DronePhysicsState :=
  if !isFlying then p
  else if p.crashed then
    let p := { p with velocity := ⟨p.velocity.x, p.velocity.y - GRAVITY * delta, p.velocity.z⟩ }
    let p := _updatePosition delta p
    let p := _handleGroundCollision p
    { p with altitude := p.position.y, tilt := ⟨0, 0⟩ }
  else
    let p :=
      match autonomousTarget with
      | some target => _steerTowardsPoint env target delta p
      | none =>
        let lift := _calculateLift env keys p
        let p := { p with
          velocity := ⟨p.velocity.x, p.velocity.y + (lift - GRAVITY) * delta, p.velocity.z⟩ }
        let p := _handleRotation keys p
        _handleMovement env delta keys p
    let p := _applyDrag p
    let p := _updatePosition delta p
    let p := _handleGroundCollision p
    { p with altitude := p.position.y }

/-- `moveToFormationPosition`: critically-damped approach to the formation
target, eased heading, decaying tilt. -/
def moveToFormationPosition (env : Env) (targetPosition : Vec3) (targetRotation : ℚ)
    (delta : ℚ) (p : DronePhysicsState) : DronePhysicsState :=
  let p := { p with inFormation := true }
  let moveSpeed := FORMATION_FOLLOW_SPEED * delta
  let dirX := targetPosition.x - p.position.x
  let dirY := targetPosition.y - p.position.y
  let dirZ := targetPosition.z - p.position.z
  let distance := env.sqrtO (dirX * dirX + dirY * dirY + dirZ * dirZ)
  let p :=
    if distance > 1/10 then
      let mx := dirX / distance * moveSpeed * distance
      let my := dirY / distance * moveSpeed * distance
      let mz := dirZ / distance * moveSpeed * distance
      { p with
        position := ⟨p.position.x + mx, p.position.y + my, p.position.z + mz⟩
        velocity := ⟨mx, my, mz⟩ }
    else
      { p with velocity := ⟨p.velocity.x * (4/5), p.velocity.y * (4/5), p.velocity.z * (4/5)⟩ }
  let rotDiff := targetRotation - p.rotation
  let normalizedRotDiff := jsMod (rotDiff + 180) 360 - 180
  let p :=
    if |normalizedRotDiff| > 1/2 then
      { p with rotation := jsMod ((p.rotation + normalizedRotDiff * (1/10)) + 360) 360 }
    else p
  { p with
    tilt := ⟨p.tilt.x * (9/10), p.tilt.z * (9/10)⟩
    altitude := p.position.y }

def exitFormation (p : DronePhysicsState) : DronePhysicsState :=
  { p with inFormation := false }

end DronePhysics

/-! ## Drone (mode layer)

Embeds the autonomous-mode state and transitions of the `Drone` class that the
claims mention: `toggleAutonomousMode` and `_calculatePathToCurrentWaypoint`.
Rendering, camera, dashboard and path visualisation are external collaborators
and have no state here. -/

structure DroneState where
  physics : DronePhysicsState
  isFlying : Bool
  navigationGrid : Option NavigationGrid
  isAutonomous : Bool
  waypoints : List Vec3
  currentWaypointIndex : ℤ
  currentPath : Option (List Vec3)
  currentTargetPathNodeIndex : ℤ

namespace Drone

/-- `_calculatePathToCurrentWaypoint`: bails out (clearing the path) without a
grid or with an out-of-range waypoint index, otherwise runs
`Pathfinder.findPath` from the current physics position to the current
waypoint with the pathfinder's default margin and penalty.  (The source
indexes `waypoints[currentWaypointIndex]` only after checking the index is in
range, so the embedded default value of `getD` is never read.) -/
def _calculatePathToCurrentWaypoint (d : DroneState) : DroneState :=
  match d.navigationGrid with
  | none => { d with currentPath := none, currentTargetPathNodeIndex := -1 }
  | some navGrid =>
    if d.currentWaypointIndex < 0 ∨ (d.waypoints.length : ℤ) ≤ d.currentWaypointIndex then
      { d with currentPath := none, currentTargetPathNodeIndex := -1 }
    else
      let startPos := d.physics.position
      let endPos := d.waypoints.getD d.currentWaypointIndex.toNat ⟨0, 0, 0⟩
      match Pathfinder.findPath navGrid startPos endPos 1 (3/2) with
      | some path =>
        if 0 < path.length then
          { d with currentPath := some path, currentTargetPathNodeIndex := 0 }
        else
          { d with currentPath := none, currentTargetPathNodeIndex := -1 }
      | none => { d with currentPath := none, currentTargetPathNodeIndex := -1 }

/-- `toggleAutonomousMode`: flips the flag; on entering, leaves formation mode
and computes a path when a waypoint is pending and no path is active; on
leaving, discards the current path and progress index immediately. -/
def toggleAutonomousMode (d : DroneState) : DroneState :=
  let d := { d with isAutonomous := !d.isAutonomous }
  if d.isAutonomous then
    let d := { d with physics := DronePhysics.exitFormation d.physics }
    if 0 < d.waypoints.length ∧ d.currentWaypointIndex < (d.waypoints.length : ℤ) ∧
        d.currentPath = none then
      _calculatePathToCurrentWaypoint d
    else d
  else
    { d with currentPath := none, currentTargetPathNodeIndex := -1 }

end Drone

/-! ## DroneManager (fleet coordinator)

Embeds `_calculateFormationPositions`.  It only reads each managed drone's
physics snapshot (`position`, `rotation`), the active index, formation flags,
pattern and spacing. -/

inductive FormationPattern
  | v
  | line
  | square
deriving DecidableEq, Repr

structure DroneManagerState where
  drones : List DronePhysicsState
  activeDroneIndex : ℤ
  formationMode : Bool
  formationPattern : FormationPattern
  formationSpacing : ℚ

structure FormationTarget where
  index : ℕ
  position : Vec3
  rotation : ℚ
deriving DecidableEq, Repr

/-- A placeholder physics state; the source never reads
`drones[activeDroneIndex]` with an invalid index, so the default below is
never consulted in the theorems (they fix a valid active index). -/
def defaultPhysics : DronePhysicsState :=
  ⟨0, ⟨0, 0, 0⟩, 0, ⟨0, 0⟩, ⟨0, 0, 0⟩, false, false⟩

/-- `Math.ceil(Math.sqrt(n))` for a natural number. -/
def natCeilSqrt (n : ℕ) : ℕ :=
  if Nat.sqrt n * Nat.sqrt n = n then Nat.sqrt n else Nat.sqrt n + 1

namespace DroneManager

/-- `_calculateFormationPositions`: V, line or square offsets behind the
leader, rotated into the leader's heading frame.  The follower slot counter
(`positions.length`, and `posIndex` in the square branch, which always equals
`positions.length`) skips the leader. -/
def _calculateFormationPositions (env : Env) (m : DroneManagerState) :
    List FormationTarget :=
  if ¬m.formationMode ∨ m.drones.length ≤ 1 ∨ m.activeDroneIndex = -1 then []
  else
    let leader := m.drones.getD m.activeDroneIndex.toNat defaultPhysics
    let leaderPosition := leader.position
    let cosR := env.cosDegO leader.rotation
    let sinR := env.sinDegO leader.rotation
    match m.formationPattern with
    | FormationPattern.v =>
      (List.range m.drones.length).foldl (fun positions (i : ℕ) =>
        if (i : ℤ) = m.activeDroneIndex then positions
        else
          let index := positions.length
          let side : ℚ := if index % 2 = 0 then 1 else -1
          let row : ℚ := ((index / 2 : ℕ) : ℚ) + 1
          let xOffset := side * m.formationSpacing * row
          let zOffset := -m.formationSpacing * row
          let rotatedX := xOffset * cosR - zOffset * sinR
          let rotatedZ := xOffset * sinR + zOffset * cosR
          positions ++ [⟨i,
            ⟨leaderPosition.x + rotatedX, leaderPosition.y, leaderPosition.z + rotatedZ⟩,
            leader.rotation⟩]) []
    | FormationPattern.line =>
      (List.range m.drones.length).foldl (fun positions (i : ℕ) =>
        if (i : ℤ) = m.activeDroneIndex then positions
        else
          let row : ℚ := (positions.length : ℚ) + 1
          let xOffset : ℚ := 0
          let zOffset := -m.formationSpacing * row
          let rotatedX := xOffset * cosR - zOffset * sinR
          let rotatedZ := xOffset * sinR + zOffset * cosR
          positions ++ [⟨i,
            ⟨leaderPosition.x + rotatedX, leaderPosition.y, leaderPosition.z + rotatedZ⟩,
            leader.rotation⟩]) []
    | FormationPattern.square =>
      let squareSize := natCeilSqrt (m.drones.length - 1)
      (List.range m.drones.length).foldl (fun positions (i : ℕ) =>
        if (i : ℤ) = m.activeDroneIndex then positions
        else
          let row : ℚ := ((positions.length / squareSize : ℕ) : ℚ)
          let col : ℚ := ((positions.length % squareSize : ℕ) : ℚ)
          let xOffset := (col - ((squareSize : ℚ) - 1) / 2) * m.formationSpacing
          let zOffset := -row * m.formationSpacing - m.formationSpacing
          let rotatedX := xOffset * cosR - zOffset * sinR
          let rotatedZ := xOffset * sinR + zOffset * cosR
          positions ++ [⟨i,
            ⟨leaderPosition.x + rotatedX, leaderPosition.y, leaderPosition.z + rotatedZ⟩,
            leader.rotation⟩]) []

end DroneManager

/-- The concrete scenario refuting C2 as stated: a 1-cell grid and a start
position that is not the cell center. -/
def c2Grid : NavigationGrid := NavigationGrid.construct 1 1 1 0

def c2Navigator : WaypointNavigator := ⟨Pathfinder.findPath, c2Grid⟩

def c2Start : Vec3 := ⟨3/10, 0, 3/10⟩

def c2Waypoint : Vec3 := ⟨1/5, 5, 1/5⟩

/-- A drone with an empty waypoint queue, not in autonomous mode. -/
def c3Drone : DroneState :=
  ⟨defaultPhysics, true, none, false, [], 0, none, -1⟩

/-- Witness for C7: on the 1-cell grid with its only cell marked as an
obstacle, `findPath` from the cell to itself fails. -/
def c7Grid : NavigationGrid :=
  { NavigationGrid.construct 1 1 1 0 with isObstacleAt := fun _ _ => true }

/-- Witness state for C4: a crashed drone in mid-air. -/
def c4Phys : DronePhysicsState :=
  ⟨5, ⟨2, 3, 4⟩, 90, ⟨10, -5⟩, ⟨0, 5, 0⟩, false, true⟩

def c4Env : Env := ⟨fun _ => 0, fun _ => 0, fun _ => 1, fun _ => 0, fun _ _ => 0, 0, 1/2⟩

/-- The concrete three-drone V-formation scenario: leader at the origin
height 10, heading 0, default spacing 5. -/
def c5Manager : DroneManagerState :=
  ⟨[⟨0, ⟨0, 0, 0⟩, 0, ⟨0, 0⟩, ⟨0, 10, 0⟩, false, false⟩, defaultPhysics, defaultPhysics],
    0, true, FormationPattern.v, 5⟩

/-- The C1 scenario: a 10x10 obstacle-free grid with unit cells, start and
goal at the world centers of cells (0,0) and (9,9). -/
def c1Grid : NavigationGrid := NavigationGrid.construct 10 10 1 0

def c1Start : Vec3 := ⟨-9/2, 1, -9/2⟩

def c1End : Vec3 := ⟨9/2, 1, 9/2⟩

/-- The expected pure-diagonal staircase from cell (0,0) to cell (9,9). -/
def c1Path : List Vec3 :=
  [⟨-9/2, 1, -9/2⟩, ⟨-7/2, 1, -7/2⟩, ⟨-5/2, 1, -5/2⟩, ⟨-3/2, 1, -3/2⟩, ⟨-1/2, 1, -1/2⟩,
    ⟨1/2, 1, 1/2⟩, ⟨3/2, 1, 3/2⟩, ⟨5/2, 1, 5/2⟩, ⟨7/2, 1, 7/2⟩, ⟨9/2, 1, 9/2⟩]

/-- Checks that every consecutive pair of points differs by exactly one cell
in both the x and z axes. -/
def isDiagonalStaircase (cellSize : ℚ) : List Vec3 → Bool
  | p :: q :: rest =>
    (decide (|q.x - p.x| = cellSize) && decide (|q.z - p.z| = cellSize)) &&
      isDiagonalStaircase cellSize (q :: rest)
  | _ => true

/-! ## Theorems -/

namespace Q2

theorem toReal_zero : (0 : Q2).toReal = 0 := by
  show toReal ⟨0, 0⟩ = 0
  simp [toReal]

theorem toReal_ofRat (q : ℚ) : (ofRat q).toReal = (q : ℝ) := by
  simp [toReal, ofRat]

theorem toReal_add (x y : Q2) : (x + y).toReal = x.toReal + y.toReal := by
  obtain ⟨a, b⟩ := x
  obtain ⟨c, d⟩ := y
  show toReal ⟨a + c, b + d⟩ = toReal ⟨a, b⟩ + toReal ⟨c, d⟩
  simp only [toReal]
  push_cast
  ring

theorem toReal_neg (x : Q2) : (-x).toReal = -x.toReal := by
  obtain ⟨a, b⟩ := x
  show toReal ⟨-a, -b⟩ = -toReal ⟨a, b⟩
  simp only [toReal]
  push_cast
  ring

theorem toReal_sub (x y : Q2) : (x - y).toReal = x.toReal - y.toReal := by
  obtain ⟨a, b⟩ := x
  obtain ⟨c, d⟩ := y
  show toReal ⟨a - c, b - d⟩ = toReal ⟨a, b⟩ - toReal ⟨c, d⟩
  simp only [toReal]
  push_cast
  ring

theorem toReal_mul (x y : Q2) : (x * y).toReal = x.toReal * y.toReal := by
  obtain ⟨a, b⟩ := x
  obtain ⟨c, d⟩ := y
  have h2 : Real.sqrt 2 ^ 2 = 2 := Real.sq_sqrt (by norm_num)
  show toReal ⟨a * c + 2 * b * d, a * d + b * c⟩ = toReal ⟨a, b⟩ * toReal ⟨c, d⟩
  simp only [toReal]
  push_cast
  linear_combination (-(b : ℝ) * (d : ℝ)) * h2

theorem nonneg_iff (x : Q2) : x.nonneg = true ↔ 0 ≤ x.toReal := by
  obtain ⟨p, q⟩ := x
  have s2 : Real.sqrt 2 * Real.sqrt 2 = 2 := Real.mul_self_sqrt (by norm_num)
  have s2n : (0 : ℝ) ≤ Real.sqrt 2 := Real.sqrt_nonneg 2
  simp only [nonneg, toReal]
  split_ifs with hb ha ha
  · simp only [true_iff]
    have hb' : (0 : ℝ) ≤ (q : ℝ) := by exact_mod_cast hb
    have ha' : (0 : ℝ) ≤ (p : ℝ) := by exact_mod_cast ha
    nlinarith [mul_nonneg hb' s2n]
  · rw [decide_eq_true_iff]
    have hb' : (0 : ℝ) ≤ (q : ℝ) := by exact_mod_cast hb
    have ha' : (p : ℝ) < 0 := by exact_mod_cast not_le.mp ha
    constructor
    · intro h
      have h' : (p : ℝ) ^ 2 ≤ 2 * (q : ℝ) ^ 2 := by exact_mod_cast h
      nlinarith [mul_nonneg hb' s2n, sq_nonneg ((q : ℝ) * Real.sqrt 2 + (p : ℝ))]
    · intro h
      have key : -(p : ℝ) ≤ (q : ℝ) * Real.sqrt 2 := by nlinarith [mul_nonneg hb' s2n]
      have k2 : (-(p : ℝ)) * (-(p : ℝ)) ≤ ((q : ℝ) * Real.sqrt 2) * ((q : ℝ) * Real.sqrt 2) :=
        mul_self_le_mul_self (by linarith) key
      have h2 : (p : ℝ) ^ 2 ≤ 2 * (q : ℝ) ^ 2 := by nlinarith
      exact_mod_cast h2
  · rw [decide_eq_true_iff]
    have hb' : (q : ℝ) < 0 := by exact_mod_cast not_le.mp hb
    have ha' : (0 : ℝ) ≤ (p : ℝ) := by exact_mod_cast ha
    constructor
    · intro h
      have h' : 2 * (q : ℝ) ^ 2 ≤ (p : ℝ) ^ 2 := by exact_mod_cast h
      nlinarith [mul_nonneg (by linarith : (0 : ℝ) ≤ -(q : ℝ)) s2n]
    · intro h
      have key : (-(q : ℝ)) * Real.sqrt 2 ≤ (p : ℝ) := by nlinarith
      have k2 : ((-(q : ℝ)) * Real.sqrt 2) * ((-(q : ℝ)) * Real.sqrt 2) ≤ (p : ℝ) * (p : ℝ) :=
        mul_self_le_mul_self (mul_nonneg (by linarith) s2n) key
      have h2 : 2 * (q : ℝ) ^ 2 ≤ (p : ℝ) ^ 2 := by nlinarith
      exact_mod_cast h2
  · simp only [false_iff, not_le]
    have hb' : (q : ℝ) < 0 := by exact_mod_cast not_le.mp hb
    have ha' : (p : ℝ) < 0 := by exact_mod_cast not_le.mp ha
    nlinarith [mul_nonneg (by linarith : (0 : ℝ) ≤ -(q : ℝ)) s2n]

theorem leb_iff (x y : Q2) : x.leb y = true ↔ x.toReal ≤ y.toReal := by
  rw [leb, nonneg_iff, toReal_sub, sub_nonneg]

theorem ltb_iff (x y : Q2) : x.ltb y = true ↔ x.toReal < y.toReal := by
  rw [ltb, Bool.not_eq_true', ← not_le, ← leb_iff]
  constructor
  · intro h hc
    rw [h] at hc
    exact Bool.false_ne_true hc
  · intro h
    exact Bool.eq_false_iff.mpr h

theorem leMulSqrt_iff (u v : Q2) (m : ℚ) (hm : 0 ≤ m) :
    leMulSqrt u v m = true ↔ u.toReal ≤ v.toReal * Real.sqrt m := by
  have hmr : (0 : ℝ) ≤ (m : ℝ) := by exact_mod_cast hm
  have sn : (0 : ℝ) ≤ Real.sqrt m := Real.sqrt_nonneg m
  have ss : Real.sqrt m * Real.sqrt m = (m : ℝ) := Real.mul_self_sqrt hmr
  unfold leMulSqrt
  split_ifs with hv hu hu
  · have hV : 0 ≤ v.toReal := (nonneg_iff v).mp hv
    have hU : 0 ≤ u.toReal := (nonneg_iff u).mp hu
    rw [leb_iff, toReal_mul, toReal_mul, toReal_mul, toReal_ofRat]
    rw [mul_self_le_mul_self_iff hU (mul_nonneg hV sn)]
    constructor
    · intro h
      nlinarith
    · intro h
      nlinarith
  · have hV : 0 ≤ v.toReal := (nonneg_iff v).mp hv
    have hU : u.toReal < 0 := by
      have := (nonneg_iff u).not.mp (by simp [hu])
      linarith [not_le.mp this]
    simp only [true_iff]
    nlinarith [mul_nonneg hV sn]
  · have hV : v.toReal < 0 := by
      have := (nonneg_iff v).not.mp (by simp [hv])
      linarith [not_le.mp this]
    have hU : u.toReal ≤ 0 := by
      have := (nonneg_iff (-u)).mp hu
      rw [toReal_neg] at this
      linarith
    rw [leb_iff, toReal_mul, toReal_mul, toReal_mul, toReal_ofRat]
    have key : v.toReal * v.toReal * (m : ℝ) ≤ u.toReal * u.toReal ↔
        -(v.toReal * Real.sqrt m) ≤ -u.toReal := by
      rw [mul_self_le_mul_self_iff (by nlinarith : (0 : ℝ) ≤ -(v.toReal * Real.sqrt m))
        (by linarith : (0 : ℝ) ≤ -u.toReal)]
      constructor
      · intro h
        nlinarith
      · intro h
        nlinarith
    rw [key]
    constructor
    · intro h
      linarith
    · intro h
      linarith
  · have hV : v.toReal < 0 := by
      have := (nonneg_iff v).not.mp (by simp [hv])
      linarith [not_le.mp this]
    have hU : 0 < u.toReal := by
      have := (nonneg_iff (-u)).not.mp (by simp [hu])
      rw [toReal_neg] at this
      linarith [not_le.mp this]
    simp only [false_iff, not_le]
    nlinarith

theorem sqrtLeAddSqrt_iff (m : ℚ) (t : Q2) (mp : ℚ) (hm : 0 ≤ m) (hmp : 0 ≤ mp) :
    sqrtLeAddSqrt m t mp = true ↔
      Real.sqrt m ≤ t.toReal + Real.sqrt mp := by
  have hmr : (0 : ℝ) ≤ (m : ℝ) := by exact_mod_cast hm
  have hmpr : (0 : ℝ) ≤ (mp : ℝ) := by exact_mod_cast hmp
  have smn : (0 : ℝ) ≤ Real.sqrt m := Real.sqrt_nonneg m
  have spn : (0 : ℝ) ≤ Real.sqrt mp := Real.sqrt_nonneg mp
  have sms : Real.sqrt m * Real.sqrt m = (m : ℝ) := Real.mul_self_sqrt hmr
  have sps : Real.sqrt mp * Real.sqrt mp = (mp : ℝ) := Real.mul_self_sqrt hmpr
  unfold sqrtLeAddSqrt
  split_ifs with hcond
  · have hrhs : 0 ≤ t.toReal + Real.sqrt mp := by
      rcases Bool.or_eq_true_iff.mp hcond with h | h
      · have := (nonneg_iff t).mp h
        linarith
      · rw [leb_iff, toReal_mul, toReal_ofRat] at h
        nlinarith [mul_self_le_mul_self_iff spn (by nlinarith : (0 : ℝ) ≤ Real.sqrt mp)]
    rw [leMulSqrt_iff _ _ _ hmp]
    rw [toReal_sub, toReal_ofRat, toReal_mul, toReal_add]
    rw [show Real.sqrt m ≤ t.toReal + Real.sqrt mp ↔
        Real.sqrt m * Real.sqrt m ≤ (t.toReal + Real.sqrt mp) * (t.toReal + Real.sqrt mp) from
      mul_self_le_mul_self_iff smn hrhs]
    rw [sms, Rat.cast_sub]
    constructor
    · intro h
      nlinarith [sps]
    · intro h
      nlinarith [sps]
  · rw [Bool.or_eq_true_iff] at hcond
    push_neg at hcond
    obtain ⟨h1, h2⟩ := hcond
    have hT : t.toReal < 0 := by
      have := (nonneg_iff t).not.mp (by simp [h1])
      linarith [not_le.mp this]
    have hsq : (mp : ℝ) < t.toReal * t.toReal := by
      have := (leb_iff (t * t) (ofRat mp)).not.mp (by simp [h2])
      rw [toReal_mul, toReal_ofRat] at this
      linarith [not_le.mp this]
    have hlt : Real.sqrt mp < -t.toReal := by
      by_contra hc
      push_neg at hc
      nlinarith [mul_self_le_mul_self (by linarith : (0 : ℝ) ≤ -t.toReal) hc]
    simp only [false_iff, not_le]
    linarith

end Q2

namespace FCost

theorem leb_toReal_iff (x y : FCost) (hx : 0 ≤ x.rad) (hy : 0 ≤ y.rad) :
    x.leb y = true ↔ x.toReal ≤ y.toReal := by
  rw [leb, Q2.sqrtLeAddSqrt_iff _ _ _ hx hy, Q2.toReal_sub, toReal, toReal]
  constructor
  · intro h
    linarith
  · intro h
    linarith

end FCost

/-! ## Supporting lemmas -/

theorem populateStep_worldWidth (acc : NavigationGrid) (ob : ObstacleBox) :
    (NavigationGrid.populateStep acc ob).worldWidth = acc.worldWidth := by
  unfold NavigationGrid.populateStep
  rcases acc.worldToGridCoordinates ob.minWorldX ob.minWorldZ with _ | s <;>
    rcases acc.worldToGridCoordinates ob.maxWorldX ob.maxWorldZ with _ | e <;> rfl

theorem populateStep_worldDepth (acc : NavigationGrid) (ob : ObstacleBox) :
    (NavigationGrid.populateStep acc ob).worldDepth = acc.worldDepth := by
  unfold NavigationGrid.populateStep
  rcases acc.worldToGridCoordinates ob.minWorldX ob.minWorldZ with _ | s <;>
    rcases acc.worldToGridCoordinates ob.maxWorldX ob.maxWorldZ with _ | e <;> rfl

theorem populateStep_cellSize (acc : NavigationGrid) (ob : ObstacleBox) :
    (NavigationGrid.populateStep acc ob).cellSize = acc.cellSize := by
  unfold NavigationGrid.populateStep
  rcases acc.worldToGridCoordinates ob.minWorldX ob.minWorldZ with _ | s <;>
    rcases acc.worldToGridCoordinates ob.maxWorldX ob.maxWorldZ with _ | e <;> rfl

theorem populateStep_groundLevel (acc : NavigationGrid) (ob : ObstacleBox) :
    (NavigationGrid.populateStep acc ob).groundLevel = acc.groundLevel := by
  unfold NavigationGrid.populateStep
  rcases acc.worldToGridCoordinates ob.minWorldX ob.minWorldZ with _ | s <;>
    rcases acc.worldToGridCoordinates ob.maxWorldX ob.maxWorldZ with _ | e <;> rfl

theorem populate_foldl_config (objs : List ObstacleBox) :
    ∀ acc : NavigationGrid,
      (objs.foldl NavigationGrid.populateStep acc).worldWidth = acc.worldWidth ∧
      (objs.foldl NavigationGrid.populateStep acc).worldDepth = acc.worldDepth ∧
      (objs.foldl NavigationGrid.populateStep acc).cellSize = acc.cellSize ∧
      (objs.foldl NavigationGrid.populateStep acc).groundLevel = acc.groundLevel := by
  induction objs with
  | nil => intro acc; exact ⟨rfl, rfl, rfl, rfl⟩
  | cons ob objs ih =>
    intro acc
    have h := ih (NavigationGrid.populateStep acc ob)
    simp only [List.foldl_cons]
    exact ⟨h.1.trans (populateStep_worldWidth acc ob),
      h.2.1.trans (populateStep_worldDepth acc ob),
      h.2.2.1.trans (populateStep_cellSize acc ob),
      h.2.2.2.trans (populateStep_groundLevel acc ob)⟩

/-- The failure cases of `genLoop` propagate. -/
theorem genLoop_of_none_mem (wn : WaypointNavigator) (margin penalty : ℚ) :
    ∀ (ws : List Vec3) (cur : Vec3) (acc : List Vec3),
      none ∈ wn.legResults margin penalty cur ws →
      wn.genLoop margin penalty acc cur ws = none := by
  intro ws
  induction ws with
  | nil =>
    intro cur acc h
    simp [WaypointNavigator.legResults] at h
  | cons w ws ih =>
    intro cur acc h
    rw [WaypointNavigator.legResults] at h
    rw [WaypointNavigator.genLoop]
    cases hp : wn.pathfinderFindPath wn.navGrid cur w margin penalty with
    | none => rfl
    | some seg =>
      rw [hp] at h
      simp only [List.mem_cons] at h
      rcases h with h | h
      · exact absurd h.symm (Option.some_ne_none seg)
      · exact ih (seg.getLastD w) (acc ++ seg.drop 1) h

/-- A successful run concatenates the start point with every leg's tail. -/
theorem genLoop_of_all_some (wn : WaypointNavigator) (margin penalty : ℚ) :
    ∀ (ws : List Vec3) (cur : Vec3) (acc : List Vec3),
      none ∉ wn.legResults margin penalty cur ws →
      wn.genLoop margin penalty acc cur ws =
        some (acc ++
          (((wn.legResults margin penalty cur ws).reduceOption.map (List.drop 1)).flatten)) := by
  intro ws
  induction ws with
  | nil =>
    intro cur acc _
    simp [WaypointNavigator.genLoop, WaypointNavigator.legResults]
  | cons w ws ih =>
    intro cur acc h
    rw [WaypointNavigator.legResults] at h ⊢
    rw [WaypointNavigator.genLoop]
    cases hp : wn.pathfinderFindPath wn.navGrid cur w margin penalty with
    | none =>
      rw [hp] at h
      simp at h
    | some seg =>
      rw [hp] at h
      simp only [List.mem_cons, not_or] at h
      dsimp only
      rw [ih (seg.getLastD w) (acc ++ seg.drop 1) h.2]
      simp [List.reduceOption_cons_of_some, List.append_assoc]

/-! ## Claim theorems -/

/-- C6: if the underlying search of any leg fails (legs run in order, each
starting from the previous leg's actual last point), the whole
`generatePathThroughWaypoints` call returns `null`: no partial route. -/
theorem c6_leg_failure_aborts (wn : WaypointNavigator) (startPos : Vec3)
    (waypoints : List Vec3) (margin penalty : ℚ)
    (h : none ∈ wn.legResults margin penalty startPos waypoints) :
    wn.generatePathThroughWaypoints startPos waypoints margin penalty = none :=
  genLoop_of_none_mem wn margin penalty waypoints startPos [startPos] h

/-- Witness for C6: a navigator whose pathfinder finds nothing fails on a
one-waypoint mission. -/
theorem c6_leg_failure_aborts_witness :
    none ∈ WaypointNavigator.legResults
        ⟨fun _ _ _ _ _ => none, NavigationGrid.construct 1 1 1 0⟩ 1 (3/2) ⟨0, 0, 0⟩ [⟨1, 1, 1⟩] ∧
      WaypointNavigator.generatePathThroughWaypoints
        ⟨fun _ _ _ _ _ => none, NavigationGrid.construct 1 1 1 0⟩ ⟨0, 0, 0⟩ [⟨1, 1, 1⟩] 1 (3/2) =
        none :=
  ⟨by decide, c6_leg_failure_aborts _ _ _ _ _ (by decide)⟩

/-- C2 counterexample: with the real pathfinder, every leg succeeds, yet the
returned path is NOT the first leg kept in full followed by the later legs'
tails: the first leg's first point (the grid-snapped start cell center at
flying height) is dropped and the literal start position appears instead. -/
theorem c2_counterexample :
    none ∉ WaypointNavigator.legResults c2Navigator 1 (3/2) c2Start [c2Waypoint] ∧
    WaypointNavigator.generatePathThroughWaypoints c2Navigator c2Start [c2Waypoint] 1 (3/2) ≠
      some (specConcatenation
        ((WaypointNavigator.legResults c2Navigator 1 (3/2) c2Start [c2Waypoint]).reduceOption)) := by
  with_unfolding_all decide

/-- C2 (amended): on success the returned path is the literal start position
followed by, for each leg in order, all of that leg's points except its first;
the start fed into each leg after the first is the previous leg's actual last
returned point (the threading performed by `legResults`). -/
theorem c2_concatenation_amended (wn : WaypointNavigator) (startPos : Vec3)
    (waypoints : List Vec3) (margin penalty : ℚ) (_hne : waypoints ≠ [])
    (h : none ∉ wn.legResults margin penalty startPos waypoints) :
    wn.generatePathThroughWaypoints startPos waypoints margin penalty =
      some (startPos ::
        (((wn.legResults margin penalty startPos waypoints).reduceOption.map
          (List.drop 1)).flatten)) := by
  have hgen := genLoop_of_all_some wn margin penalty waypoints startPos [startPos] h
  simpa using hgen

theorem c2_concatenation_amended_witness :
    ([c2Waypoint] ≠ ([] : List Vec3)) ∧
    none ∉ WaypointNavigator.legResults c2Navigator 1 (3/2) c2Start [c2Waypoint] ∧
    WaypointNavigator.generatePathThroughWaypoints c2Navigator c2Start [c2Waypoint] 1 (3/2) =
      some (c2Start ::
        (((WaypointNavigator.legResults c2Navigator 1 (3/2) c2Start [c2Waypoint]).reduceOption.map
          (List.drop 1)).flatten)) :=
  ⟨by decide, by with_unfolding_all decide,
    c2_concatenation_amended c2Navigator c2Start [c2Waypoint] 1 (3/2) (by decide)
      (by with_unfolding_all decide)⟩

/-- C3 counterexample: toggling autonomous mode with an empty waypoint queue
DOES put the agent into the autonomous state (the flag flips
unconditionally). -/
theorem c3_counterexample :
    c3Drone.waypoints = [] ∧ c3Drone.isAutonomous = false ∧
    (Drone.toggleAutonomousMode c3Drone).isAutonomous = true := by
  refine ⟨rfl, rfl, rfl⟩

/-- C3 (amended): `toggleAutonomousMode` flips the flag unconditionally; with
an empty waypoint queue the agent does enter the autonomous state, but no path
computation is triggered (path and progress index are untouched). -/
theorem c3_toggle_amended (d : DroneState) (hw : d.waypoints = [])
    (ha : d.isAutonomous = false) :
    (Drone.toggleAutonomousMode d).isAutonomous = true ∧
    (Drone.toggleAutonomousMode d).currentPath = d.currentPath ∧
    (Drone.toggleAutonomousMode d).currentTargetPathNodeIndex =
      d.currentTargetPathNodeIndex := by
  unfold Drone.toggleAutonomousMode
  rw [ha, hw]
  simp

theorem c3_toggle_amended_witness :
    c3Drone.waypoints = [] ∧ c3Drone.isAutonomous = false ∧
    (Drone.toggleAutonomousMode c3Drone).isAutonomous = true ∧
    (Drone.toggleAutonomousMode c3Drone).currentPath = c3Drone.currentPath ∧
    (Drone.toggleAutonomousMode c3Drone).currentTargetPathNodeIndex =
      c3Drone.currentTargetPathNodeIndex := by
  have h := c3_toggle_amended c3Drone rfl rfl
  exact ⟨rfl, rfl, h.1, h.2.1, h.2.2⟩

/-- C7: `findPath` fails immediately when an endpoint maps outside the grid or
when the start or end cell is an obstacle. -/
theorem c7_invalid_endpoints (g : NavigationGrid) (s e : Vec3) (margin penalty : ℚ)
    (h : g.worldToGridCoordinates s.x s.z = none ∨
      g.worldToGridCoordinates e.x e.z = none ∨
      (∃ sc, g.worldToGridCoordinates s.x s.z = some sc ∧ g.isObstacleAt sc.1 sc.2 = true) ∨
      (∃ ec, g.worldToGridCoordinates e.x e.z = some ec ∧ g.isObstacleAt ec.1 ec.2 = true)) :
    Pathfinder.findPath g s e margin penalty = none := by
  unfold Pathfinder.findPath
  rcases h with h1 | h2 | ⟨sc, hsc, hob⟩ | ⟨ec, hec, hob⟩
  · rw [h1]
  · rw [h2]
    cases g.worldToGridCoordinates s.x s.z <;> rfl
  · rw [hsc]
    cases he : g.worldToGridCoordinates e.x e.z with
    | none => rfl
    | some ec =>
      simp [hob]
  · rw [hec]
    cases hs : g.worldToGridCoordinates s.x s.z with
    | none => rfl
    | some sc =>
      simp [hob]

theorem c7_invalid_endpoints_witness :
    (∃ sc, c7Grid.worldToGridCoordinates 0 0 = some sc ∧
      c7Grid.isObstacleAt sc.1 sc.2 = true) ∧
    Pathfinder.findPath c7Grid ⟨0, 0, 0⟩ ⟨0, 0, 0⟩ 1 (3/2) = none :=
  ⟨⟨(0, 0), by with_unfolding_all decide, rfl⟩,
    c7_invalid_endpoints c7Grid ⟨0, 0, 0⟩ ⟨0, 0, 0⟩ 1 (3/2)
      (Or.inr (Or.inr (Or.inl ⟨(0, 0), by with_unfolding_all decide, rfl⟩)))⟩

/-- C8: for every grid and every in-bounds index pair, converting a cell to
its world center and back yields the same indices.  (A zero cell size would
make the grid empty, so in-bounds pairs only exist when the division by
`cellSize` is honest.) -/
theorem c8_grid_world_roundtrip (g : NavigationGrid) (i j : ℕ)
    (hi : i < g.gridCellsX) (hj : j < g.gridCellsZ) :
    (g.gridToWorldCoordinates i j).bind (fun c => g.worldToGridCoordinates c.1 c.2) =
      some (i, j) := by
  have hcs : g.cellSize ≠ 0 := by
    intro h0
    have hz : g.gridCellsX = 0 := by
      simp [NavigationGrid.gridCellsX, h0]
    rw [hz] at hi
    exact Nat.not_lt_zero _ hi
  unfold NavigationGrid.gridToWorldCoordinates
  rw [if_pos ⟨hi, hj⟩]
  rw [Option.some_bind]
  unfold NavigationGrid.worldToGridCoordinates
  have hx : (g.cellWorldX i + g.worldWidth / 2) / g.cellSize = (i : ℚ) + 1 / 2 := by
    unfold NavigationGrid.cellWorldX
    field_simp
    ring
  have hz : (g.cellWorldZ j + g.worldDepth / 2) / g.cellSize = (j : ℚ) + 1 / 2 := by
    unfold NavigationGrid.cellWorldZ
    field_simp
    ring
  have hfx : ⌊(i : ℚ) + 1 / 2⌋ = (i : ℤ) := by
    rw [Int.floor_eq_iff]
    constructor
    · push_cast
      linarith
    · push_cast
      linarith
  have hfz : ⌊(j : ℚ) + 1 / 2⌋ = (j : ℤ) := by
    rw [Int.floor_eq_iff]
    constructor
    · push_cast
      linarith
    · push_cast
      linarith
  simp only [hx, hz, hfx, hfz]
  rw [if_pos ⟨Int.natCast_nonneg i, by exact_mod_cast hi, Int.natCast_nonneg j,
    by exact_mod_cast hj⟩]
  simp

theorem c8_grid_world_roundtrip_witness :
    0 < c2Grid.gridCellsX ∧ 0 < c2Grid.gridCellsZ ∧
    (c2Grid.gridToWorldCoordinates 0 0).bind
      (fun c => c2Grid.worldToGridCoordinates c.1 c.2) = some (0, 0) :=
  ⟨by with_unfolding_all decide, by with_unfolding_all decide,
    c8_grid_world_roundtrip c2Grid 0 0
      (by with_unfolding_all decide) (by with_unfolding_all decide)⟩

/-- C9: repopulating the grid with the same obstacle list is idempotent: the
repopulation first resets every cell, so the final state depends only on the
immutable configuration and the obstacle list. -/
theorem c9_populate_idempotent (g : NavigationGrid) (objs : List ObstacleBox) :
    (g.populateFromObjects objs).populateFromObjects objs = g.populateFromObjects objs := by
  have key : ∀ g1 g2 : NavigationGrid,
      g1.worldWidth = g2.worldWidth → g1.worldDepth = g2.worldDepth →
      g1.cellSize = g2.cellSize → g1.groundLevel = g2.groundLevel →
      g1.populateFromObjects objs = g2.populateFromObjects objs := by
    intro g1 g2 h1 h2 h3 h4
    simp only [NavigationGrid.populateFromObjects]
    rw [h1, h2, h3, h4]
  have hconf := populate_foldl_config objs
    { g with isObstacleAt := fun _ _ => false, maxObstacleHeightAt := fun _ _ => g.groundLevel }
  exact key (g.populateFromObjects objs) g hconf.1 hconf.2.1 hconf.2.2.1 hconf.2.2.2

/-- C4: while the crashed flag is set, a (flying) physics tick applies only
gravity and the ground clamp: heading and horizontal velocity are unchanged,
tilt is zeroed, vertical velocity changes exactly by `-GRAVITY * delta` unless
the ground clamp fires, the flag stays set (so this repeats on every
subsequent tick), and only an explicit `reset` clears it. -/
theorem c4_crashed_tick (env : Env) (p : DronePhysicsState) (delta : ℚ) (keys : Keys)
    (autonomousTarget : Option Vec3) (hc : p.crashed = true) :
    (DronePhysics.update env delta keys true autonomousTarget p).crashed = true ∧
    (DronePhysics.update env delta keys true autonomousTarget p).rotation = p.rotation ∧
    (DronePhysics.update env delta keys true autonomousTarget p).velocity.x = p.velocity.x ∧
    (DronePhysics.update env delta keys true autonomousTarget p).velocity.z = p.velocity.z ∧
    (DronePhysics.update env delta keys true autonomousTarget p).tilt = ⟨0, 0⟩ ∧
    (if p.position.y + (p.velocity.y - DronePhysics.GRAVITY * delta) * delta < 1 then
      (DronePhysics.update env delta keys true autonomousTarget p).velocity.y = 0 ∧
      (DronePhysics.update env delta keys true autonomousTarget p).position.y = 1
    else
      (DronePhysics.update env delta keys true autonomousTarget p).velocity.y =
        p.velocity.y - DronePhysics.GRAVITY * delta ∧
      (DronePhysics.update env delta keys true autonomousTarget p).position.y =
        p.position.y + (p.velocity.y - DronePhysics.GRAVITY * delta) * delta) ∧
    (DronePhysics.reset (DronePhysics.update env delta keys true autonomousTarget p)).crashed =
      false ∧
    DronePhysics.update env delta keys false autonomousTarget p = p := by
  simp only [DronePhysics.update, DronePhysics._updatePosition, DronePhysics._handleGroundCollision,
    DronePhysics.reset, hc, Bool.not_true, Bool.false_eq_true, if_false, if_true]
  split_ifs <;> simp_all

theorem c4_crashed_tick_witness :
    c4Phys.crashed = true ∧
    (DronePhysics.update c4Env (1/10) Keys.none true none c4Phys).crashed = true ∧
    (DronePhysics.update c4Env (1/10) Keys.none true none c4Phys).rotation = c4Phys.rotation ∧
    (DronePhysics.update c4Env (1/10) Keys.none true none c4Phys).velocity.x =
      c4Phys.velocity.x ∧
    (DronePhysics.update c4Env (1/10) Keys.none true none c4Phys).velocity.z =
      c4Phys.velocity.z ∧
    (DronePhysics.update c4Env (1/10) Keys.none true none c4Phys).tilt = ⟨0, 0⟩ := by
  have h := c4_crashed_tick c4Env c4Phys (1/10) Keys.none none rfl
  exact ⟨rfl, h.1, h.2.1, h.2.2.1, h.2.2.2.1, h.2.2.2.2.1⟩

/-- The clamp to `[-c, c]` is bounded by `c`. -/
theorem abs_clampQ (v c : ℚ) (hc : 0 ≤ c) : |clampQ v (-c) c| ≤ c := by
  rw [abs_le]
  constructor
  · exact le_max_left _ _
  · exact max_le (by linarith) (min_le_left _ _)

/-- Scaling by a factor in `[0, 1]` preserves a bound. -/
theorem abs_mul_le_of_le {t c M : ℚ} (h : |t| ≤ M) (hc0 : 0 ≤ c) (hc1 : c ≤ 1) :
    |t * c| ≤ M := by
  rw [abs_mul, abs_of_nonneg hc0]
  nlinarith [abs_nonneg t]

/-- Autonomous steering always clamps both tilt components to the maximum
tilt, whatever the oracle returns. -/
theorem steer_tilt_bounded (env : Env) (t : Vec3) (delta : ℚ) (p : DronePhysicsState) :
    |(DronePhysics._steerTowardsPoint env t delta p).tilt.x| ≤ DronePhysics.MAX_TILT ∧
    |(DronePhysics._steerTowardsPoint env t delta p).tilt.z| ≤ DronePhysics.MAX_TILT := by
  constructor
  · exact abs_clampQ _ _ (by norm_num [DronePhysics.MAX_TILT])
  · exact abs_clampQ _ _ (by norm_num [DronePhysics.MAX_TILT])

/-- Manual movement keeps both tilt components within the maximum tilt. -/
theorem handleMovement_tilt_bounded (env : Env) (delta : ℚ) (keys : Keys)
    (p : DronePhysicsState)
    (hx : |p.tilt.x| ≤ DronePhysics.MAX_TILT) (hz : |p.tilt.z| ≤ DronePhysics.MAX_TILT) :
    |(DronePhysics._handleMovement env delta keys p).tilt.x| ≤ DronePhysics.MAX_TILT ∧
    |(DronePhysics._handleMovement env delta keys p).tilt.z| ≤ DronePhysics.MAX_TILT := by
  rw [abs_le] at hx hz
  unfold DronePhysics._handleMovement DronePhysics.reset
  by_cases hr : keys.r
  · simp only [hr, if_true]
    norm_num [DronePhysics.MAX_TILT]
  · simp only [hr, if_false]
    constructor
    · by_cases hw : keys.w
      · simp only [hw, if_true]
        rw [abs_le]
        constructor
        · exact le_min (by linarith [hx.1]) (by norm_num [DronePhysics.MAX_TILT])
        · exact min_le_right _ _
      · by_cases hs : keys.s
        · simp only [hw, hs, if_false, if_true]
          rw [abs_le]
          constructor
          · exact le_max_right _ _
          · exact max_le (by linarith [hx.2]) (by norm_num [DronePhysics.MAX_TILT])
        · simp only [hw, hs, if_false]
          exact abs_mul_le_of_le (abs_le.mpr hx) (by norm_num) (by norm_num)
    · by_cases ha : keys.a
      · simp only [ha, if_true]
        rw [abs_le]
        constructor
        · exact le_max_right _ _
        · exact max_le (by linarith [hz.2]) (by norm_num [DronePhysics.MAX_TILT])
      · by_cases hd : keys.d
        · simp only [ha, hd, if_false, if_true]
          rw [abs_le]
          constructor
          · exact le_min (by linarith [hz.1]) (by norm_num [DronePhysics.MAX_TILT])
          · exact min_le_right _ _
        · simp only [ha, hd, if_false]
          exact abs_mul_le_of_le (abs_le.mpr hz) (by norm_num) (by norm_num)

/-- The shared post-step chain (drag, integration, ground collision) never
touches tilt. -/
theorem tail_tilt (delta : ℚ) (q : DronePhysicsState) :
    (DronePhysics._handleGroundCollision
      (DronePhysics._updatePosition delta (DronePhysics._applyDrag q))).tilt = q.tilt := by
  unfold DronePhysics._handleGroundCollision DronePhysics._updatePosition DronePhysics._applyDrag
  split_ifs <;> rfl

/-- C10: every per-tick update of the flight physics (manual movement,
autonomous steering, the crashed branch, and formation following) preserves
the tilt bound `|tilt| ≤ MAX_TILT` on both axes, for every oracle, input and
time step. -/
theorem c10_tilt_bounded (env : Env) (p : DronePhysicsState) (delta : ℚ) (keys : Keys)
    (isFlying : Bool) (autonomousTarget : Option Vec3) (tp : Vec3) (tr : ℚ)
    (hx : |p.tilt.x| ≤ DronePhysics.MAX_TILT) (hz : |p.tilt.z| ≤ DronePhysics.MAX_TILT) :
    (|(DronePhysics.update env delta keys isFlying autonomousTarget p).tilt.x| ≤
        DronePhysics.MAX_TILT ∧
      |(DronePhysics.update env delta keys isFlying autonomousTarget p).tilt.z| ≤
        DronePhysics.MAX_TILT) ∧
    (|(DronePhysics.moveToFormationPosition env tp tr delta p).tilt.x| ≤
        DronePhysics.MAX_TILT ∧
      |(DronePhysics.moveToFormationPosition env tp tr delta p).tilt.z| ≤
        DronePhysics.MAX_TILT) := by
  constructor
  · cases isFlying with
    | false => exact ⟨hx, hz⟩
    | true =>
      by_cases hcr : p.crashed = true
      · simp only [DronePhysics.update, hcr, Bool.not_true, Bool.false_eq_true, if_false,
          if_true]
        norm_num [DronePhysics.MAX_TILT]
      · rw [Bool.not_eq_true] at hcr
        simp only [DronePhysics.update, hcr, Bool.not_true, Bool.false_eq_true, if_false]
        cases autonomousTarget with
        | some t =>
          simp only [tail_tilt]
          exact steer_tilt_bounded env t delta p
        | none =>
          simp only [tail_tilt]
          exact handleMovement_tilt_bounded env delta keys _ hx hz
  · unfold DronePhysics.moveToFormationPosition
    dsimp only
    split_ifs <;>
      exact ⟨abs_mul_le_of_le hx (by norm_num) (by norm_num),
        abs_mul_le_of_le hz (by norm_num) (by norm_num)⟩

theorem c10_tilt_bounded_witness :
    |c4Phys.tilt.x| ≤ DronePhysics.MAX_TILT ∧ |c4Phys.tilt.z| ≤ DronePhysics.MAX_TILT ∧
    |(DronePhysics.update c4Env (1/10) Keys.none true none c4Phys).tilt.x| ≤
      DronePhysics.MAX_TILT ∧
    |(DronePhysics.moveToFormationPosition c4Env ⟨1, 2, 3⟩ 45 (1/10) c4Phys).tilt.x| ≤
      DronePhysics.MAX_TILT := by
  have h := c10_tilt_bounded c4Env c4Phys (1/10) Keys.none true none ⟨1, 2, 3⟩ 45
    (by norm_num [c4Phys, DronePhysics.MAX_TILT]) (by norm_num [c4Phys, DronePhysics.MAX_TILT])
  exact ⟨by norm_num [c4Phys, DronePhysics.MAX_TILT],
    by norm_num [c4Phys, DronePhysics.MAX_TILT], h.1.1, h.2.1⟩

/-- C5 (amended): a three-drone fleet in V formation with the leader at
heading 0 produces mirror-image follower targets at row 1 — offsets
`(+spacing, -spacing behind)` and `(-spacing, -spacing behind)` in the
leader's frame — each with squared magnitude `2 * spacing^2` (i.e. magnitude
`spacing * sqrt 2`, not `spacing`). -/
theorem c5_v_formation_amended (env : Env) (L : Vec3) (s : ℚ) (f1 f2 : DronePhysicsState)
    (hcos : env.cosDegO 0 = 1) (hsin : env.sinDegO 0 = 0) :
    DroneManager._calculateFormationPositions env
        ⟨[⟨0, ⟨0, 0, 0⟩, 0, ⟨0, 0⟩, L, false, false⟩, f1, f2], 0, true, FormationPattern.v, s⟩ =
      [⟨1, ⟨L.x + s, L.y, L.z - s⟩, 0⟩, ⟨2, ⟨L.x - s, L.y, L.z - s⟩, 0⟩] ∧
    (L.x + s) - L.x = -((L.x - s) - L.x) ∧
    ((L.x + s) - L.x) ^ 2 + (L.y - L.y) ^ 2 + ((L.z - s) - L.z) ^ 2 = 2 * s ^ 2 ∧
    ((L.x - s) - L.x) ^ 2 + (L.y - L.y) ^ 2 + ((L.z - s) - L.z) ^ 2 = 2 * s ^ 2 := by
  refine ⟨?_, by ring, by ring, by ring⟩
  unfold DroneManager._calculateFormationPositions
  norm_num [List.foldl, hcos, hsin]
  exact ⟨by ring, by ring, by ring⟩

/-- C5 counterexample: with spacing 5 the first follower's target offset from
the leader is `(5, 0, -5)`, whose squared magnitude is 50, not
`spacing^2 = 25` — so the offset's magnitude is `5 * sqrt 2`, not 5. -/
theorem c5_counterexample :
    ((DroneManager._calculateFormationPositions c4Env c5Manager).getD 0
      ⟨0, ⟨0, 0, 0⟩, 0⟩).position = ⟨5, 10, -5⟩ ∧
    ((5 - 0 : ℚ) ^ 2 + (10 - 10) ^ 2 + (-5 - 0) ^ 2 ≠ 5 ^ 2) := by
  constructor
  · with_unfolding_all decide
  · norm_num

theorem c5_v_formation_amended_witness :
    c4Env.cosDegO 0 = 1 ∧ c4Env.sinDegO 0 = 0 ∧
    DroneManager._calculateFormationPositions c4Env c5Manager =
      [⟨1, ⟨0 + 5, 10, 0 - 5⟩, 0⟩, ⟨2, ⟨0 - 5, 10, 0 - 5⟩, 0⟩] :=
  ⟨rfl, rfl,
    (c5_v_formation_amended c4Env ⟨0, 10, 0⟩ 5 defaultPhysics defaultPhysics rfl rfl).1⟩

set_option maxRecDepth 10000 in
/-- C1: on the 10x10 obstacle-free unit grid, `findPath` between the centers
of cells (0,0) and (9,9) with the default margin and penalty returns exactly
the 10-point pure diagonal staircase from start to goal inclusive. -/
theorem c1_diagonal_staircase :
    Pathfinder.findPath c1Grid c1Start c1End 1 (3/2) = some c1Path ∧
    c1Path.length = 10 ∧
    isDiagonalStaircase 1 c1Path = true ∧
    c1Path.head? = some c1Start ∧
    c1Path.getLast? = some c1End := by
  with_unfolding_all decide
